import Mathlib

/-!
Shallow embedding of `src/app.py` (a two-endpoint Flask backend that
builds prompt strings and forwards them to a text-generation client),
together with theorems settling the frozen claims about it.

The embedding models:
 - JSON dynamic values (`JsonVal`) as produced by `request.get_json()`;
 - the Python operations the handlers perform on them (`dict.get`,
   `item[key]` subscription, iteration, `len`, truthiness, `str()`
   interpolation in f-strings), with Python exceptions made explicit
   (`PyError`);
 - the field extraction of both endpoints (`app.py` lines 49-54 and
   105-110), the user-context construction (lines 74-80 and 175-178),
   the system prompts, the model identifiers, the response schema of
   `QuestionResponse`, and the export shape of both handlers
   (success / generic failure / uncaught exception).
-/

namespace AutoCounselors

/-- A JSON value, as Python represents the parsed request body.
Numbers are restricted to integers; no claim involves fractional JSON
numbers. -/
inductive JsonVal where
  | jnull
  | jbool (b : Bool)
  | jint (n : Int)
  | jstr (s : String)
  | jarr (elems : List JsonVal)
  | jobj (fields : List (String × JsonVal))
deriving Repr

/-- Python exceptions the handler code can raise outside any `try` block. -/
inductive PyError where
  | keyError (k : String)
  | typeError
  | attributeError (attr : String)
deriving Repr, DecidableEq

/-- `dict.get(k, d)`: first binding of `k`, else the default `d`. -/
def dictGetD (fields : List (String × JsonVal)) (k : String) (d : JsonVal) : JsonVal :=
  (fields.lookup k).getD d

/-- `data.get(k, d)` on an arbitrary value: only dicts have a `get`
attribute; every other value raises `AttributeError`. -/
def pyGet (data : JsonVal) (k : String) (d : JsonVal) : Except PyError JsonVal :=
  match data with
  | .jobj fields => .ok (dictGetD fields k d)
  | _ => .error (.attributeError "get")

/-- `item[k]` with a string key: dicts look the key up (raising
`KeyError` when absent); subscribing any non-dict value with a string
key raises `TypeError`. -/
def pyIndexStr (item : JsonVal) (k : String) : Except PyError JsonVal :=
  match item with
  | .jobj fields =>
      match fields.lookup k with
      | some v => .ok v
      | none => .error (.keyError k)
  | _ => .error .typeError

/-- `for x in v`: lists yield elements, strings yield one-character
strings, dicts yield their keys; other values raise `TypeError`. -/
def pyIter (v : JsonVal) : Except PyError (List JsonVal) :=
  match v with
  | .jarr elems => .ok elems
  | .jstr s => .ok (s.toList.map (fun c => .jstr (String.singleton c)))
  | .jobj fields => .ok (fields.map (fun kv => .jstr kv.1))
  | _ => .error .typeError

/-- `len(v)` for lists, strings and dicts; `TypeError` otherwise. -/
def pyLen (v : JsonVal) : Except PyError Nat :=
  match v with
  | .jarr elems => .ok elems.length
  | .jstr s => .ok s.length
  | .jobj fields => .ok fields.length
  | _ => .error .typeError

/-- Python truthiness (`if not history:` in the handler). -/
def pyTruthy : JsonVal → Bool
  | .jnull => false
  | .jbool b => b
  | .jint n => decide (n ≠ 0)
  | .jstr s => decide (s ≠ "")
  | .jarr elems => !elems.isEmpty
  | .jobj fields => !fields.isEmpty

/-- The single-quote character, as Python prefers for `repr` of strings. -/
def singleQuote : Char := Char.ofNat 39

/-- Quote character `repr` picks for a string: single quotes, unless the
string contains a single quote and no double quote. -/
def pyQuoteChar (s : String) : Char :=
  if s.contains singleQuote && !(s.contains '"') then '"' else singleQuote

/-- Escaping of one character inside a Python string `repr`. -/
def pyEscChar (quote : Char) (c : Char) : String :=
  if c = '\\' then "\\\\"
  else if c = quote then "\\" ++ String.singleton quote
  else if c = '\n' then "\\n"
  else if c = '\r' then "\\r"
  else if c = '\t' then "\\t"
  else String.singleton c

/-- Python `repr` of a string. -/
def pyStrRepr (s : String) : String :=
  let q := pyQuoteChar s
  String.singleton q ++ String.join (s.toList.map (pyEscChar q)) ++ String.singleton q

mutual
/-- Python `repr` of a JSON-like value. -/
def pyRepr : JsonVal → String
  | .jnull => "None"
  | .jbool true => "True"
  | .jbool false => "False"
  | .jint n => toString n
  | .jstr s => pyStrRepr s
  | .jarr elems => "[" ++ pyReprList elems ++ "]"
  | .jobj fields => "\x7b" ++ pyReprFields fields ++ "\x7d"

/-- Comma-separated `repr`s of list elements. -/
def pyReprList : List JsonVal → String
  | [] => ""
  | [v] => pyRepr v
  | v :: rest => pyRepr v ++ ", " ++ pyReprList rest

/-- Comma-separated `repr`s of dict entries. -/
def pyReprFields : List (String × JsonVal) → String
  | [] => ""
  | [(k, v)] => pyStrRepr k ++ ": " ++ pyRepr v
  | (k, v) :: rest => pyStrRepr k ++ ": " ++ pyRepr v ++ ", " ++ pyReprFields rest
end

/-- Python `str(v)`, as interpolated by an f-string: strings unchanged,
everything else via `repr` (with `None`, `True`, `False` and decimal
integers as special cases, exactly as `repr` renders them). -/
def pyStr : JsonVal → String
  | .jstr s => s
  | v => pyRepr v

/-- The five request fields both handlers read from the JSON body. -/
structure Fields where
  language : JsonVal
  name : JsonVal
  age : JsonVal
  gender : JsonVal
  history : JsonVal
deriving Repr

/-- Field extraction of `/api/next_question` (`app.py` lines 49-54):
`data.get` with defaults language="English", name="User", age=18,
gender="Other", history=[]. -/
def nqExtract (data : JsonVal) : Except PyError Fields := do
  let language ← pyGet data "language" (.jstr "English")
  let name ← pyGet data "name" (.jstr "User")
  let age ← pyGet data "age" (.jint 18)
  let gender ← pyGet data "gender" (.jstr "Other")
  let history ← pyGet data "history" (.jarr [])
  pure ⟨language, name, age, gender, history⟩

/-- Field extraction of `/api/generate_report` (`app.py` lines 105-110):
`data.get('age')` and `data.get('gender')` have no default, so a missing
field yields Python `None`. -/
def grExtract (data : JsonVal) : Except PyError Fields := do
  let name ← pyGet data "name" (.jstr "User")
  let age ← pyGet data "age" .jnull
  let gender ← pyGet data "gender" .jnull
  let history ← pyGet data "history" (.jarr [])
  let language ← pyGet data "language" (.jstr "English")
  pure ⟨language, name, age, gender, history⟩

/-- Everything of the `/api/next_question` system prompt (`app.py`
lines 57-72) before the interpolated name. -/
def nqPromptA : String :=
  "ROLE:\n" ++
  "You are an ELITE, highly experienced career counselor for Easyskill Career Academy. Your consultation fee is 500 rupees, meaning your service is premium, high-value, and deeply analytical. Your job is to conduct a thorough, dynamic interview with a student to build a concrete roadmap for their life.\n" ++
  "\n" ++
  "The user profile: Name: "

/-- The `/api/next_question` system prompt between the interpolated
language of the profile line and the interpolated language of the final
LANGUAGE REQUIREMENT line. -/
def nqPromptB : String :=
  ".\n" ++
  "\n" ++
  "PHASE 1: THE INTERVIEW LOOP\n" ++
  "- Ask exactly ONE question at a time. Never ask multiple questions in a single response.\n" ++
  "- PREMIUM COUNSELING REQUIREMENT: Because the user has paid 500 rupees, you must NEVER ask boring, generic, or random questions. Every single question must be deeply thought-provoking, directly relevant to building their career roadmap, and highly professional.\n" ++
  "- ULTRA-SHORT QUESTIONS: Your questions MUST be extremely concise, punchy, and direct. NEVER write 3-4 line questions. Use very short sentences, for example: \"Where have you studied?\", \"What package do you want in your future?\", or \"What is your current salary?\".\n" ++
  "- Your questions must adapt logically to the user\x27s previous answers. Dig deep into their specific skills, financial realities, and ambitions. Ensure a perfect, logical flow to the questioning.\n" ++
  "- Ask a minimum of 7 and a maximum of 15 questions. If you feel you have gathered enough deeply critical data to justify the 500-rupee premium report after 7 questions, you may stop. Otherwise, continue up to 15.\n" ++
  "- Track the question count silently. Do not tell the user which question number they are on.\n" ++
  "- End of Interview: Once you have asked 7 to 15 questions and gathered sufficient data to build a premium roadmap, output the exact phrase: ASSESSMENT_COMPLETE and await the command to generate the report.\n" ++
  "- CRITICAL: Provide exactly 3 to 4 short, highly clickable multiple-choice options for the user to tap in valid JSON format.\n" ++
  "- LANGUAGE REQUIREMENT: You MUST generate the question and the options strictly in "

/-- The `/api/next_question` system prompt (the f-string of `app.py`
lines 57-72), built over the extracted request fields. -/
def nqSysPrompt (f : Fields) : String :=
  nqPromptA ++ pyStr f.name ++ ", Age: " ++ pyStr f.age ++ ", Gender: " ++
    pyStr f.gender ++ ", Preferred Language: " ++ pyStr f.language ++
    nqPromptB ++ pyStr f.language ++ ".\n"

/-- Everything of the `/api/generate_report` system prompt (`app.py`
lines 113-173) before the interpolated name of the profile line. -/
def grPromptA : String :=
  "ROLE:\n" ++
  "You are an ELITE, highly experienced career counselor for Easyskill Career Academy. The user has paid 500 rupees for this consultation roadmap, so the final report MUST completely justify this premium price. It must be a highly customized, visually scannable, and actionable life roadmap that feels exclusive and expertly crafted.\n" ++
  "    \n" ++
  "The user profile: "

/-- The `/api/generate_report` system prompt between the interpolated
language of the profile line and the interpolated language of the
LANGUAGE REQUIREMENT line. -/
def grPromptB : String :=
  ".\n" ++
  "    \n" ++
  "PHASE 2: THE FINAL PREMIUM REPORT GENERATION\n" ++
  "When commanded to generate the report, you must use the exact structure below.\n" ++
  "\n" ++
  "CRITICAL RULES FOR THE PREMIUM REPORT:\n" ++
  "- DO NOT use generic advice, long introductory paragraphs, or motivational filler. Every word must hold high value.\n" ++
  "- The roadmap must perfectly logically align with the answers they gave during the interview loop.\n" ++
  "- Use highly scannable bullet points, short sentences, and bold text for key terms.\n" ++
  "- Keep the tone elite, authoritative, professional, and highly actionable.\n" ++
  "- Format the output as clean HTML (using <h1>, <h2>, <ul>, <li>, <strong>) suitable for injecting directly into a webpage\x27s div. \n" ++
  "- EXTREMELY IMPORTANT BAN ON FULL HTML: DO NOT generate a full HTML document. You MUST NOT include <!DOCTYPE html>, <html>, <head>, <style>, or <body> tags. ONLY output the internal structural tags (<h1>, <h2>, <p>, <ul>, <footer>).\n" ++
  "- EXTREMELY IMPORTANT BAN ON MARKDOWN: DO NOT wrap the output in Markdown code blocks (e.g. absolutely no ```html at the start and no ``` at the end). Just output the raw HTML tags sequence directly as plain text. The system crashes if you use markdown code blocks.\n" ++
  "- LANGUAGE REQUIREMENT: You MUST generate the report content strictly in "

/-- The `/api/generate_report` system prompt after the second
interpolated language, down to the closing of the f-string. -/
def grPromptC : String :=
  ".\n" ++
  "\n" ++
  "REPORT VISUAL THEME AND STYLING:\n" ++
  "- Branding: The report should be headed with \"EASYSKILL CAREER ACADEMY\".\n" ++
  "- Color Palette: Use the clean white, light gray, and distinct blue from the source image.\n" ++
  "- Headings: Style all <h1>, <h2>, <h3> tags with the academy\x27s primary blue color.\n" ++
  "- Underline: Add a stylized blue underline element, similar to the one in the image under \"IT Skills\", below the main <h1> title.\n" ++
  "- Fonts: Specify a clean, professional, sans-serif font throughout the HTML.\n" ++
  "- Scannability: Use the colors and bullet points to make information pop, mimicking the clear sections and visual hierarchy of the provided image.\n" ++
  "- Trust-Building Elements: Integrate specific academy achievements from the source image into the PDF footer for added credibility.\n" ++
  "- Add a section in the footer, stylized with a blue banner or border, featuring the icons and specific stats from the bottom of the image:\n" ++
  "  - An icon of a student with the text \"25,500+ Happy Students\".\n" ++
  "  - An icon of an instructor with the text \"50+ Industry Courses\".\n" ++
  "  - A map pin icon with the text \"2+ Branches\".\n" ++
  "- Contact Info: Include the phone number from the source image (+91 908 154 5252) and a small call-to-action to \"Contact us to kickstart your career!\" in the footer area. Use the image\x27s clean, modern styling for this.\n" ++
  "\n" ++
  "REPORT STRUCTURE:\n" ++
  "\n" ++
  "<h1>EASYSKILL CAREER ACADEMY</h1>\n" ++
  "<div class=\"styled-underline\"></div>\n" ++
  "\n" ++
  "<h2>1. Executive Profile Snapshot</h2>\n" ++
  "(Provide 3 to 4 sharp bullet points summarizing their core strengths, primary interests, and ideal work environment based strictly on their interview answers).\n" ++
  "\n" ++
  "<h2>2. Top 3 Recommended Career Paths</h2>\n" ++
  "(For each path, provide):\n" ++
  "Role: [Specific Job Title]\n" ++
  "Why it fits: [One concise sentence explaining the match based on their specific answers]\n" ++
  "Market Outlook: [Brief note on industry demand]\n" ++
  "\n" ++
  "<h2>3. The 30-Day Action Plan</h2>\n" ++
  "(Provide exactly 3 immediate, concrete steps. Avoid generic advice like \"network\". Specify exact certifications, software tools, or specific types of portfolio projects they should start immediately, making them actionable checklists).\n" ++
  "\n" ++
  "<h2>4. Skill Gap Analysis</h2>\n" ++
  "(List 2 to 3 specific technical or soft skills they currently lack for their recommended paths, and recommend precise ways to acquire them, such as relevant online courses or practical projects).\n" ++
  "\n" ++
  "<footer>\n" ++
  "<div class=\"stats-banner\">\n" ++
  "    <div class=\"stat\">üë©‚Äçüéì 25,500+ Happy Students</div>\n" ++
  "    <div class=\"stat\">üë®‚Äçüè´ 50+ Industry Courses</div>\n" ++
  "    <div class=\"stat\">üìç 2+ Branches</div>\n" ++
  "</div>\n" ++
  "<p style=\"text-align: center; margin-top: 20px; color: #1E3A8A; font-weight: bold;\">Contact Us: +91 908 154 5252 | Learn more at easyskill.in</p>\n" ++
  "</footer>\n" ++
  "    "

/-- The `/api/generate_report` system prompt (the f-string of `app.py`
lines 113-173), built over the extracted request fields. -/
def grSysPrompt (f : Fields) : String :=
  grPromptA ++ pyStr f.name ++ ", " ++ pyStr f.age ++ " years old, gender: " ++
    pyStr f.gender ++ ", Preferred Language: " ++ pyStr f.language ++
    grPromptB ++ pyStr f.language ++ grPromptC

/-- One iteration of the history loop: the f-string
`"Q: ...question...\nA: ...answer...\n"`, with the Python exceptions of
subscribing `item`. -/
def fmtQA (item : JsonVal) : Except PyError String := do
  let q ← pyIndexStr item "question"
  let a ← pyIndexStr item "answer"
  pure ("Q: " ++ pyStr q ++ "\nA: " ++ pyStr a ++ "\n")

/-- The whole history loop: concatenation of the formatted pairs, or
the first Python exception raised by it. -/
def buildPairs : List JsonVal → Except PyError String
  | [] => .ok ""
  | item :: rest => do
    let s ← fmtQA item
    let t ← buildPairs rest
    pure (s ++ t)

/-- The user-context string of `/api/next_question` (`app.py` lines
74-80). -/
def nqUserContext (history : JsonVal) : Except PyError String :=
  if !(pyTruthy history) then
    .ok ("Q&A History so far:\n" ++
      "No questions asked yet. This is Question 1. Ask about their current life status or immediate goal.\n")
  else do
    let items ← pyIter history
    let pairs ← buildPairs items
    let n ← pyLen history
    pure ("Q&A History so far:\n" ++ pairs ++
      "\nThis is Question " ++ toString (n + 1) ++
      ". Based on the above, ask the NEXT logical question to dig deeper.")

/-- The user-context string of `/api/generate_report` (`app.py` lines
175-178). -/
def grUserContext (history : JsonVal) : Except PyError String := do
  let items ← pyIter history
  let pairs ← buildPairs items
  pure ("User\x27s Q&A History:\n" ++ pairs ++
    "\nGenerate the final counseling report and course pitch.")

/-- `MODEL_NAME` of `app.py` line 31. -/
def MODEL_NAME : String := "gemini-2.5-pro"

/-- The model identifier `/api/next_question` passes to
`generate_content` (`app.py` line 90, commented "Use Flash model for
speed here"). -/
def nextQuestionModel : String := "gemini-2.5-flash"

/-- The model identifier `/api/generate_report` passes to
`generate_content` (`app.py` line 187). -/
def generateReportModel : String := MODEL_NAME

/-- A request body as the handlers see it: either not JSON
(`request.is_json` false) or a parsed JSON value. -/
inductive ReqBody where
  | notJson
  | json (data : JsonVal)

/-- Outcome of the one outbound `generate_content` call: generated text,
or any raised exception (treated as opaque). -/
inductive ModelResult where
  | ok (text : String)
  | failure
deriving Repr, DecidableEq

/-- Response body shapes the handlers produce: `Response(text)` verbatim,
`jsonify(...)` of an object, or the HTML error page Flask renders for a
raised `HTTPException` such as `BadRequest`. -/
inductive RespBody where
  | raw (text : String)
  | jsonObj (fields : List (String × JsonVal))
  | htmlError (description : String)

/-- What the caller observes: an HTTP response with a status code, or an
exception that escaped the handler uncaught. -/
inductive Outcome where
  | response (status : Nat) (body : RespBody)
  | uncaught (e : PyError)

/-- The `/api/next_question` handler (`app.py` lines 43-97). The system
prompt is built between field extraction and the user context, and is a
total string computation; the `try` block only guards the model call and
the success response. -/
def nextQuestionHandler (req : ReqBody) (model : ModelResult) : Outcome :=
  match req with
  | .notJson => .response 400 (.htmlError "Invalid request format. Expected JSON.")
  | .json data =>
    match nqExtract data with
    | .error e => .uncaught e
    | .ok f =>
      let _sys := nqSysPrompt f
      match nqUserContext f.history with
      | .error e => .uncaught e
      | .ok _ctx =>
        match model with
        | .ok text => .response 200 (.raw text)
        | .failure => .response 500 (.jsonObj [("error", .jstr "Failed to calculate next question.")])

/-- The `/api/generate_report` handler (`app.py` lines 99-194). -/
def generateReportHandler (req : ReqBody) (model : ModelResult) : Outcome :=
  match req with
  | .notJson => .response 400 (.htmlError "Invalid request format. Expected JSON.")
  | .json data =>
    match grExtract data with
    | .error e => .uncaught e
    | .ok f =>
      let _sys := grSysPrompt f
      match grUserContext f.history with
      | .error e => .uncaught e
      | .ok _ctx =>
        match model with
        | .ok text => .response 200 (.jsonObj [("report", .jstr text)])
        | .failure => .response 500 (.jsonObj [("error", .jstr "Failed to generate report.")])

/-- Whether a JSON value is a string. -/
def isStr : JsonVal → Bool
  | .jstr _ => true
  | _ => false

/-- The output-schema constraint derived from the pydantic class
`QuestionResponse` (`app.py` lines 34-36): `question` must be a string
and `options` a list of strings. The `Field(description=...)` texts are
human-readable metadata and impose no further constraint. -/
def questionResponseValid (v : JsonVal) : Bool :=
  match v with
  | .jobj fields =>
    (match fields.lookup "question" with
     | some (.jstr _) => true
     | _ => false)
    &&
    (match fields.lookup "options" with
     | some (.jarr elems) => elems.all isStr
     | _ => false)
  | _ => false

/-- A well-formed history item, as the spec's QAItem: a JSON object with
string-valued `question` and `answer` fields. -/
def qaPair (q a : String) : JsonVal :=
  .jobj [("question", .jstr q), ("answer", .jstr a)]

/-- The text one history item contributes to the user context. -/
def fmtPairStr (p : String × String) : String :=
  "Q: " ++ p.1 ++ "\nA: " ++ p.2 ++ "\n"

/-! ## Helper lemmas -/

theorem ebind_ok {α β : Type} (a : α) (f : α → Except PyError β) :
    (Except.ok a >>= f) = f a := rfl

theorem ebind_error {α β : Type} (e : PyError) (f : α → Except PyError β) :
    ((Except.error e : Except PyError α) >>= f) = .error e := rfl

theorem emap_ok {α β : Type} (a : α) (f : α → β) :
    (f <$> (Except.ok a : Except PyError α)) = .ok (f a) := rfl

theorem emap_error {α β : Type} (e : PyError) (f : α → β) :
    (f <$> (Except.error e : Except PyError α)) = .error e := rfl

theorem join_cons (s : String) (l : List String) :
    String.join (s :: l) = s ++ String.join l := by
  rw [String.join_eq, String.join_eq]
  apply String.ext
  simp [String.append]

theorem fmtQA_qaPair (q a : String) :
    fmtQA (qaPair q a) = .ok (fmtPairStr (q, a)) := rfl

theorem buildPairs_map (ps : List (String × String)) :
    buildPairs (ps.map (fun p => qaPair p.1 p.2)) =
      .ok (String.join (ps.map fmtPairStr)) := by
  induction ps with
  | nil => rfl
  | cons p rest ih =>
    simp only [List.map_cons, buildPairs, fmtQA_qaPair, ih, join_cons]
    rfl

theorem nqExtract_jobj (fs : List (String × JsonVal)) :
    nqExtract (.jobj fs) =
      .ok ⟨dictGetD fs "language" (.jstr "English"), dictGetD fs "name" (.jstr "User"),
           dictGetD fs "age" (.jint 18), dictGetD fs "gender" (.jstr "Other"),
           dictGetD fs "history" (.jarr [])⟩ := rfl

theorem grExtract_jobj (fs : List (String × JsonVal)) :
    grExtract (.jobj fs) =
      .ok ⟨dictGetD fs "language" (.jstr "English"), dictGetD fs "name" (.jstr "User"),
           dictGetD fs "age" .jnull, dictGetD fs "gender" .jnull,
           dictGetD fs "history" (.jarr [])⟩ := rfl

/-! ## Claims -/

/-- C7: the two endpoints pass distinct model identifiers to the model
client: `/api/next_question` requests the flash (faster/cheaper) variant,
`/api/generate_report` requests the pro (higher-quality) variant via
`MODEL_NAME`. -/
theorem endpoints_use_distinct_models :
    nextQuestionModel = "gemini-2.5-flash" ∧
    generateReportModel = "gemini-2.5-pro" ∧
    generateReportModel = MODEL_NAME ∧
    nextQuestionModel ≠ generateReportModel :=
  ⟨rfl, rfl, rfl, by decide⟩

/-- C5 counterexample: the client error raised for a non-JSON body
carries the message "Invalid request format. Expected JSON.", which is
not the exact message "Invalid request format" the claim states. -/
theorem non_json_message_not_bare :
    nextQuestionHandler .notJson .failure =
      .response 400 (.htmlError "Invalid request format. Expected JSON.") ∧
    generateReportHandler .notJson .failure =
      .response 400 (.htmlError "Invalid request format. Expected JSON.") ∧
    "Invalid request format. Expected JSON." ≠ "Invalid request format" :=
  ⟨rfl, rfl, by decide⟩

/-- C5 (amended): a non-JSON body to either endpoint yields a 400
response whose message is exactly "Invalid request format. Expected
JSON.", for every outcome of the model client — never an uncaught
exception (server crash). -/
theorem non_json_body_yields_400 (m : ModelResult) :
    nextQuestionHandler .notJson m =
      .response 400 (.htmlError "Invalid request format. Expected JSON.") ∧
    generateReportHandler .notJson m =
      .response 400 (.htmlError "Invalid request format. Expected JSON.") :=
  ⟨rfl, rfl⟩

/-- C5 witness: instance of the amended statement at a failing model. -/
theorem non_json_body_yields_400_witness :
    nextQuestionHandler .notJson .failure =
      .response 400 (.htmlError "Invalid request format. Expected JSON.") :=
  (non_json_body_yields_400 .failure).1

/-- C3 counterexample: for the body with an empty history, the
constructed user-context string starts with the header
"Q&A History so far:\n" and therefore is not equal to the bare sentence
the claim states. -/
theorem empty_history_context_not_bare_sentence :
    nqExtract (.jobj [("history", .jarr [])]) =
      .ok ⟨.jstr "English", .jstr "User", .jint 18, .jstr "Other", .jarr []⟩ ∧
    nqUserContext (.jarr []) =
      .ok ("Q&A History so far:\nNo questions asked yet. This is Question 1. Ask about their current life status or immediate goal.\n") ∧
    ("Q&A History so far:\nNo questions asked yet. This is Question 1. Ask about their current life status or immediate goal.\n" ≠
      "No questions asked yet. This is Question 1. Ask about their current life status or immediate goal.\n") :=
  ⟨rfl, rfl, by decide⟩

/-- C3 (amended): for a POST to `/api/next_question` whose body is
`\x7b"history": []\x7d`, the constructed user-context string equals
exactly "Q&A History so far:\nNo questions asked yet. This is Question
1. Ask about their current life status or immediate goal.\n". -/
theorem empty_history_context_exact :
    nqExtract (.jobj [("history", .jarr [])]) =
      .ok ⟨.jstr "English", .jstr "User", .jint 18, .jstr "Other", .jarr []⟩ ∧
    nqUserContext (.jarr []) =
      .ok ("Q&A History so far:\nNo questions asked yet. This is Question 1. Ask about their current life status or immediate goal.\n") :=
  ⟨rfl, rfl⟩

/-- C1 counterexample: `/api/generate_report` applies no default for the
omitted `age` and `gender` fields: extraction of the empty body yields
Python `None` for both, not 18 and not "Other". -/
theorem report_extract_age_gender_not_defaulted :
    grExtract (.jobj []) =
      .ok ⟨.jstr "English", .jstr "User", .jnull, .jnull, .jarr []⟩ ∧
    (JsonVal.jnull ≠ JsonVal.jint 18) ∧
    (JsonVal.jnull ≠ JsonVal.jstr "Other") :=
  ⟨rfl, fun h => JsonVal.noConfusion h, fun h => JsonVal.noConfusion h⟩

/-- C1 (amended): `/api/next_question` applies the documented defaults
exactly (language="English", name="User", age=18, gender="Other",
history=[]) for every omitted optional field; `/api/generate_report`
applies the defaults for name, language and history, but an omitted
`age` or `gender` becomes Python `None` rather than 18 or "Other". -/
theorem extract_applies_defaults_per_endpoint (fs : List (String × JsonVal)) :
    (∀ f, nqExtract (.jobj fs) = .ok f →
      ((fs.lookup "language" = none → f.language = .jstr "English") ∧
       (fs.lookup "name" = none → f.name = .jstr "User") ∧
       (fs.lookup "age" = none → f.age = .jint 18) ∧
       (fs.lookup "gender" = none → f.gender = .jstr "Other") ∧
       (fs.lookup "history" = none → f.history = .jarr []))) ∧
    (∀ f, grExtract (.jobj fs) = .ok f →
      ((fs.lookup "language" = none → f.language = .jstr "English") ∧
       (fs.lookup "name" = none → f.name = .jstr "User") ∧
       (fs.lookup "age" = none → f.age = .jnull) ∧
       (fs.lookup "gender" = none → f.gender = .jnull) ∧
       (fs.lookup "history" = none → f.history = .jarr []))) := by
  constructor
  · intro f hf
    rw [nqExtract_jobj] at hf
    obtain rfl : f = _ := (Except.ok.injEq _ _).mp hf.symm
    refine ⟨fun h => ?_, fun h => ?_, fun h => ?_, fun h => ?_, fun h => ?_⟩ <;>
      simp [dictGetD, h]
  · intro f hf
    rw [grExtract_jobj] at hf
    obtain rfl : f = _ := (Except.ok.injEq _ _).mp hf.symm
    refine ⟨fun h => ?_, fun h => ?_, fun h => ?_, fun h => ?_, fun h => ?_⟩ <;>
      simp [dictGetD, h]

/-- C1 witness: on the empty body, `/api/next_question` extraction
defaults the language to "English". -/
theorem extract_applies_defaults_per_endpoint_witness :
    Fields.language ⟨.jstr "English", .jstr "User", .jint 18, .jstr "Other", .jarr []⟩ =
      .jstr "English" :=
  ((extract_applies_defaults_per_endpoint []).1
    ⟨.jstr "English", .jstr "User", .jint 18, .jstr "Other", .jarr []⟩ rfl).1 rfl

/-- C2: for a history of N well-formed items, the user-context string of
either endpoint is the endpoint's header, followed by exactly the N
formatted question/answer pairs joined in order, followed by the
endpoint's trailer; the formatted list has one entry per history item,
and its i-th entry formats the i-th history item. -/
theorem user_context_lists_history_pairs_in_order (ps : List (String × String)) :
    (ps ≠ [] →
      nqUserContext (.jarr (ps.map (fun p => qaPair p.1 p.2))) =
        .ok ("Q&A History so far:\n" ++ String.join (ps.map fmtPairStr) ++
          "\nThis is Question " ++ toString (ps.length + 1) ++
          ". Based on the above, ask the NEXT logical question to dig deeper.")) ∧
    grUserContext (.jarr (ps.map (fun p => qaPair p.1 p.2))) =
      .ok ("User\x27s Q&A History:\n" ++ String.join (ps.map fmtPairStr) ++
        "\nGenerate the final counseling report and course pitch.") ∧
    (ps.map fmtPairStr).length = ps.length ∧
    (∀ i (hi : i < ps.length),
      (ps.map fmtPairStr).get? i = some (fmtPairStr (ps.get ⟨i, hi⟩))) := by
  refine ⟨?_, ?_, ps.length_map fmtPairStr, ?_⟩
  · intro hne
    obtain ⟨p, rest, rfl⟩ := List.exists_cons_of_ne_nil hne
    have hbp := buildPairs_map (p :: rest)
    simp only [List.map_cons] at hbp ⊢
    simp [nqUserContext, pyTruthy, pyIter, pyLen, hbp, ebind_ok, emap_ok]
  · have hbp := buildPairs_map ps
    simp [grUserContext, pyIter, hbp, ebind_ok, emap_ok]
  · intro i hi
    rw [List.get?_map, List.get?_eq_get hi]
    rfl

/-- C2 witness: a singleton history produces a context with exactly its
one pair. -/
theorem user_context_lists_history_pairs_witness :
    nqUserContext (.jarr [qaPair "q1" "a1"]) =
      .ok ("Q&A History so far:\nQ: q1\nA: a1\n\nThis is Question 2. Based on the above, ask the NEXT logical question to dig deeper.") :=
  (user_context_lists_history_pairs_in_order [("q1", "a1")]).1 (by decide)

/-- C4: whenever the model call raises, either endpoint returns a 500
response whose body is exactly the one-field JSON object with the fixed
generic message for that endpoint — so no stack trace or failure detail
reaches the caller, and the model is consulted only once per request. -/
theorem model_failure_fixed_500 (data : JsonVal) (f g : Fields) (s t : String)
    (hf : nqExtract data = .ok f) (hs : nqUserContext f.history = .ok s)
    (hg : grExtract data = .ok g) (ht : grUserContext g.history = .ok t) :
    nextQuestionHandler (.json data) .failure =
      .response 500 (.jsonObj [("error", .jstr "Failed to calculate next question.")]) ∧
    generateReportHandler (.json data) .failure =
      .response 500 (.jsonObj [("error", .jstr "Failed to generate report.")]) := by
  constructor
  · simp [nextQuestionHandler, hf, hs]
  · simp [generateReportHandler, hg, ht]

/-- C4 witness: on the empty-object body, a failing model call yields
the two fixed 500 responses. -/
theorem model_failure_fixed_500_witness :
    nextQuestionHandler (.json (.jobj [])) .failure =
      .response 500 (.jsonObj [("error", .jstr "Failed to calculate next question.")]) ∧
    generateReportHandler (.json (.jobj [])) .failure =
      .response 500 (.jsonObj [("error", .jstr "Failed to generate report.")]) :=
  model_failure_fixed_500 (.jobj [])
    ⟨.jstr "English", .jstr "User", .jint 18, .jstr "Other", .jarr []⟩
    ⟨.jstr "English", .jstr "User", .jnull, .jnull, .jarr []⟩
    ("Q&A History so far:\nNo questions asked yet. This is Question 1. Ask about their current life status or immediate goal.\n")
    ("User\x27s Q&A History:\n\nGenerate the final counseling report and course pitch.")
    rfl rfl rfl rfl

/-- C6 counterexample: the schema derived from `QuestionResponse`
accepts an object whose `options` list has 5 elements, so it does not
enforce the 3-4 bound the claim states. -/
theorem schema_admits_five_options :
    questionResponseValid
      (.jobj [("question", .jstr "Pick one"),
              ("options", .jarr [.jstr "a", .jstr "b", .jstr "c", .jstr "d", .jstr "e"])]) = true ∧
    [JsonVal.jstr "a", .jstr "b", .jstr "c", .jstr "d", .jstr "e"].length = 5 ∧
    ¬(3 ≤ 5 ∧ 5 ≤ 4) :=
  ⟨rfl, rfl, by decide⟩

/-- C6 (amended): the schema the server constrains the model with
enforces exactly that `question` is a string and `options` is a sequence
of strings; it places no bound on the number of options (a list of any
length of strings validates) — the "3 to 4" text lives only in the field
description and the prompt. -/
theorem schema_shape_characterization (fields : List (String × JsonVal)) :
    (questionResponseValid (.jobj fields) = true ↔
      ((∃ q, fields.lookup "question" = some (.jstr q)) ∧
       (∃ elems, fields.lookup "options" = some (.jarr elems) ∧
         ∀ v ∈ elems, isStr v = true))) ∧
    (∀ n, questionResponseValid
      (.jobj [("question", .jstr "q"),
              ("options", .jarr (List.replicate n (.jstr "x")))]) = true) := by
  constructor
  · constructor
    · intro h
      simp only [questionResponseValid] at h
      rw [Bool.and_eq_true] at h
      obtain ⟨h1, h2⟩ := h
      constructor
      · split at h1
        case _ s heq => exact ⟨s, heq⟩
        all_goals exact absurd h1 (by simp)
      · split at h2
        case _ elems heq => exact ⟨elems, heq, List.all_eq_true.mp h2⟩
        all_goals exact absurd h2 (by simp)
    · rintro ⟨⟨q, hq⟩, elems, he, hall⟩
      simp only [questionResponseValid]
      rw [hq, he, Bool.and_eq_true]
      exact ⟨rfl, List.all_eq_true.mpr hall⟩
  · intro n
    have h1 : ([("question", JsonVal.jstr "q"),
        ("options", JsonVal.jarr (List.replicate n (.jstr "x")))].lookup "question") =
        some (.jstr "q") := rfl
    have h2 : ([("question", JsonVal.jstr "q"),
        ("options", JsonVal.jarr (List.replicate n (.jstr "x")))].lookup "options") =
        some (.jarr (List.replicate n (.jstr "x"))) := rfl
    simp only [questionResponseValid]
    rw [h1, h2, Bool.and_eq_true]
    refine ⟨rfl, List.all_eq_true.mpr ?_⟩
    intro v hv
    rw [List.eq_of_mem_replicate hv]
    rfl

/-- C6 witness: five string options validate against the schema. -/
theorem schema_shape_characterization_witness :
    questionResponseValid
      (.jobj [("question", .jstr "q"),
              ("options", .jarr (List.replicate 5 (.jstr "x")))]) = true :=
  (schema_shape_characterization []).2 5

theorem buildPairs_keyError (items : List JsonVal)
    (hobj : ∀ it ∈ items, ∃ kvs, it = .jobj kvs)
    (hbad : ∃ it ∈ items, ∃ kvs, it = .jobj kvs ∧
      (kvs.lookup "question" = none ∨ kvs.lookup "answer" = none)) :
    ∃ k, buildPairs items = .error (.keyError k) ∧ (k = "question" ∨ k = "answer") := by
  induction items with
  | nil =>
    obtain ⟨it, hmem, _⟩ := hbad
    exact absurd hmem (List.not_mem_nil it)
  | cons it rest ih =>
    obtain ⟨kvs, rfl⟩ := hobj it (List.mem_cons_self it rest)
    cases hq : kvs.lookup "question" with
    | none =>
      refine ⟨"question", ?_, Or.inl rfl⟩
      simp [buildPairs, fmtQA, pyIndexStr, hq, ebind_ok, ebind_error, emap_error]
    | some qv =>
      cases ha : kvs.lookup "answer" with
      | none =>
        refine ⟨"answer", ?_, Or.inr rfl⟩
        simp [buildPairs, fmtQA, pyIndexStr, hq, ha, ebind_ok, ebind_error, emap_error]
      | some av =>
        obtain ⟨bad, hmem, kvs2, hb, hor⟩ := hbad
        rcases List.mem_cons.mp hmem with heq | hmemrest
        · rw [heq] at hb
          obtain rfl : kvs2 = kvs := (JsonVal.jobj.injEq _ _).mp hb.symm
          rcases hor with h | h
          · rw [hq] at h; exact absurd h (by simp)
          · rw [ha] at h; exact absurd h (by simp)
        · obtain ⟨k, herr, hk⟩ :=
            ih (fun x hx => hobj x (List.mem_cons_of_mem _ hx)) ⟨bad, hmemrest, kvs2, hb, hor⟩
          refine ⟨k, ?_, hk⟩
          simp [buildPairs, fmtQA, pyIndexStr, hq, ha, herr, ebind_ok, ebind_error, emap_error]

/-- C8: if the history of either request is a list of JSON objects and
some object lacks a `question` or `answer` key, then the history loop
(which runs before the `try` block guarding the model call) raises an
uncaught KeyError: the outcome is an escaped exception, which is not an
HTTP response at all — in particular neither the 400 validation error
nor a fixed-message 500. -/
theorem history_item_missing_key_uncaught (fs : List (String × JsonVal))
    (items : List JsonVal) (m : ModelResult)
    (hhist : fs.lookup "history" = some (.jarr items))
    (hobj : ∀ it ∈ items, ∃ kvs, it = .jobj kvs)
    (hbad : ∃ it ∈ items, ∃ kvs, it = .jobj kvs ∧
      (kvs.lookup "question" = none ∨ kvs.lookup "answer" = none)) :
    ∃ k, (k = "question" ∨ k = "answer") ∧
      nextQuestionHandler (.json (.jobj fs)) m = .uncaught (.keyError k) ∧
      generateReportHandler (.json (.jobj fs)) m = .uncaught (.keyError k) ∧
      (∀ status body, Outcome.uncaught (.keyError k) ≠ .response status body) := by
  obtain ⟨k, herr, hk⟩ := buildPairs_keyError items hobj hbad
  have hne : items ≠ [] := by
    rintro rfl
    obtain ⟨it, hmem, _⟩ := hbad
    exact absurd hmem (List.not_mem_nil it)
  obtain ⟨x, xs, rfl⟩ := List.exists_cons_of_ne_nil hne
  have hctxnq : nqUserContext (.jarr (x :: xs)) = .error (.keyError k) := by
    simp [nqUserContext, pyTruthy, pyIter, pyLen, herr, ebind_ok, ebind_error, emap_error]
  have hctxgr : grUserContext (.jarr (x :: xs)) = .error (.keyError k) := by
    simp [grUserContext, pyIter, herr, ebind_ok, ebind_error, emap_error]
  refine ⟨k, hk, ?_, ?_, fun status body h => Outcome.noConfusion h⟩
  · simp [nextQuestionHandler, nqExtract_jobj, dictGetD, hhist, hctxnq]
  · simp [generateReportHandler, grExtract_jobj, dictGetD, hhist, hctxgr]

/-- C8 witness: a request whose history holds one empty object escapes
both handlers with a KeyError. -/
theorem history_item_missing_key_uncaught_witness :
    ∃ k, (k = "question" ∨ k = "answer") ∧
      nextQuestionHandler (.json (.jobj [("history", .jarr [.jobj []])])) .failure =
        .uncaught (.keyError k) ∧
      generateReportHandler (.json (.jobj [("history", .jarr [.jobj []])])) .failure =
        .uncaught (.keyError k) ∧
      (∀ status body, Outcome.uncaught (.keyError k) ≠ .response status body) :=
  history_item_missing_key_uncaught [("history", .jarr [.jobj []])] [.jobj []] .failure rfl
    (fun _it hit => ⟨[], List.mem_singleton.mp hit⟩)
    ⟨.jobj [], List.mem_singleton.mpr rfl, [], rfl, Or.inl rfl⟩

/-- C9: if the request body parses as JSON but its top-level value is
not an object, `data.get` raises an uncaught AttributeError on both
endpoints, so the caller receives neither the 400 validation error nor
the generic 500 — no HTTP response at all. -/
theorem non_object_body_uncaught (v : JsonVal) (m : ModelResult)
    (hnotobj : ∀ fields, v ≠ .jobj fields) :
    nextQuestionHandler (.json v) m = .uncaught (.attributeError "get") ∧
    generateReportHandler (.json v) m = .uncaught (.attributeError "get") ∧
    (∀ status body, Outcome.uncaught (.attributeError "get") ≠ .response status body) := by
  have h3 : ∀ status body, Outcome.uncaught (.attributeError "get") ≠ .response status body :=
    fun _ _ h => Outcome.noConfusion h
  cases v with
  | jobj fields => exact absurd rfl (hnotobj fields)
  | jnull => exact ⟨rfl, rfl, h3⟩
  | jbool b => exact ⟨rfl, rfl, h3⟩
  | jint n => exact ⟨rfl, rfl, h3⟩
  | jstr s => exact ⟨rfl, rfl, h3⟩
  | jarr l => exact ⟨rfl, rfl, h3⟩

/-- C9 witness: a top-level JSON list escapes both handlers with an
AttributeError. -/
theorem non_object_body_uncaught_witness :
    nextQuestionHandler (.json (.jarr [])) .failure = .uncaught (.attributeError "get") ∧
    generateReportHandler (.json (.jarr [])) .failure = .uncaught (.attributeError "get") ∧
    (∀ status body, Outcome.uncaught (.attributeError "get") ≠ .response status body) :=
  non_object_body_uncaught (.jarr []) .failure (fun _ h => JsonVal.noConfusion h)

/-- C10: for every `/api/generate_report` request that omits `age`,
`gender`, or both, extraction substitutes no default: the omitted field
becomes Python `None`, and the system prompt's user-profile line
interpolates it as the literal text "None" — containing
"None years old, gender: " when `age` is omitted,
" years old, gender: None, Preferred Language: " when `gender` is
omitted, and "None years old, gender: None" when both are. -/
theorem report_prompt_contains_none_profile (fs : List (String × JsonVal)) :
    ∃ f, grExtract (.jobj fs) = .ok f ∧
      (fs.lookup "age" = none → f.age = .jnull ∧
        ∃ a b, grSysPrompt f = a ++ "None years old, gender: " ++ b) ∧
      (fs.lookup "gender" = none → f.gender = .jnull ∧
        ∃ a b, grSysPrompt f = a ++ " years old, gender: None, Preferred Language: " ++ b) ∧
      (fs.lookup "age" = none → fs.lookup "gender" = none →
        ∃ a b, grSysPrompt f = a ++ "None years old, gender: None" ++ b) := by
  refine ⟨_, grExtract_jobj fs, ?_, ?_, ?_⟩
  · intro hage
    refine ⟨by simp [dictGetD, hage],
      grPromptA ++ pyStr (dictGetD fs "name" (.jstr "User")) ++ ", ",
      pyStr (dictGetD fs "gender" .jnull) ++ (", Preferred Language: " ++
        (pyStr (dictGetD fs "language" (.jstr "English")) ++
          (grPromptB ++ (pyStr (dictGetD fs "language" (.jstr "English")) ++ grPromptC)))), ?_⟩
    simp only [grSysPrompt, dictGetD, hage, Option.getD]
    simp [pyStr, pyRepr, String.append_assoc]
  · intro hgender
    refine ⟨by simp [dictGetD, hgender],
      grPromptA ++ pyStr (dictGetD fs "name" (.jstr "User")) ++ ", " ++
        pyStr (dictGetD fs "age" .jnull),
      pyStr (dictGetD fs "language" (.jstr "English")) ++ grPromptB ++
        pyStr (dictGetD fs "language" (.jstr "English")) ++ grPromptC, ?_⟩
    simp only [grSysPrompt, dictGetD, hgender, Option.getD]
    simp [pyStr, pyRepr, String.append_assoc]
  · intro hage hgender
    refine ⟨grPromptA ++ pyStr (dictGetD fs "name" (.jstr "User")) ++ ", ",
      ", Preferred Language: " ++ pyStr (dictGetD fs "language" (.jstr "English")) ++
        grPromptB ++ pyStr (dictGetD fs "language" (.jstr "English")) ++ grPromptC, ?_⟩
    have hmerge : ∀ Z : String,
        (", None years old, gender: None" : String) ++ (", Preferred Language: " ++ Z) =
        ", None years old, gender: None, Preferred Language: " ++ Z := by
      intro Z
      rw [← String.append_assoc]
      rfl
    rw [show ("None years old, gender: None" : String) =
      "None" ++ " years old, gender: " ++ "None" from rfl]
    simp only [grSysPrompt, dictGetD, hage, hgender, Option.getD]
    simp [pyStr, pyRepr, String.append_assoc, hmerge]

/-- C10 witness: a body giving a gender but omitting the age produces a
report prompt containing "None years old, gender: ". -/
theorem report_prompt_contains_none_profile_witness :
    ∃ a b, grSysPrompt ⟨.jstr "English", .jstr "User", .jnull, .jstr "Female", .jarr []⟩ =
      a ++ "None years old, gender: " ++ b := by
  obtain ⟨f, hf, hAge, _hGender, _hBoth⟩ :=
    report_prompt_contains_none_profile [("gender", .jstr "Female")]
  rw [grExtract_jobj] at hf
  obtain rfl : f = _ := (Except.ok.injEq _ _).mp hf.symm
  exact (hAge rfl).2

end AutoCounselors
